import Mathlib

/-!
Shallow embedding of the HDB BTO affordability calculator
(`src/constants.py` and `src/calculations.py`).

Python floats are modelled as exact rationals (`ℚ`); Python `int()`
truncation, `math.ceil`, and the `float(inf)` tier capacities are
modelled explicitly (`pyInt`, `Int.ceil`, `Option ℚ` with `none` = ∞).
A few record fields are renamed to satisfy the identifier conventions of
this development (`savings_ratio` → `savings_frac`, and likewise for the
benchmark ratio fields); presentation-only message strings are omitted
from the records.
-/

namespace BTO

/-- constants.py: `HDB_INTEREST_RATE = 0.026`. -/
def HDB_INTEREST_RATE : ℚ := 26 / 1000

/-- constants.py: `MAX_TENURE_YEARS = 25`. -/
def MAX_TENURE_YEARS : ℕ := 25

/-- constants.py: `LTV_LIMIT = 0.75`. -/
def LTV_LIMIT : ℚ := 75 / 100

/-- constants.py: `MSR_LIMIT = 0.30`. -/
def MSR_LIMIT : ℚ := 30 / 100

/-- constants.py: `HDB_INCOME_CEILING = 14000`. -/
def HDB_INCOME_CEILING : ℚ := 14000

/-- constants.py: `GST_RATE = 0.09`. -/
def GST_RATE : ℚ := 9 / 100

/-- constants.py: `BSD_BRACKETS`; `none` stands for `float(inf)`. -/
def BSD_BRACKETS : List (Option ℚ × ℚ) :=
  [(some 180000, 1 / 100), (some 180000, 2 / 100),
   (some 640000, 3 / 100), (none, 4 / 100)]

/-- constants.py: `LEGAL_FEE_TIERS`; `none` stands for `float(inf)`. -/
def LEGAL_FEE_TIERS : List (Option ℚ × ℚ) :=
  [(some 30000, 90 / 100), (some 30000, 72 / 100), (none, 60 / 100)]

/-- The tier loop of `calculate_stamp_duty`: consume the amount tier by
tier, adding `min(remaining, bracket_amount) * rate`, stopping when
nothing remains (`if remaining <= 0: break`). -/
def tieredSum : ℚ → List (Option ℚ × ℚ) → ℚ
  | _, [] => 0
  | remaining, (cap, rate) :: rest =>
    if remaining ≤ 0 then 0
    else
      let applicable :=
        match cap with
        | none => remaining
        | some c => min remaining c
      applicable * rate + tieredSum (remaining - applicable) rest

/-- The tier loop of `calculate_hdb_legal_fees`: identical to `tieredSum`
except each tier contributes `(applicable / 1000) * rate_per_1000`. -/
def perThousandSum : ℚ → List (Option ℚ × ℚ) → ℚ
  | _, [] => 0
  | remaining, (cap, rate) :: rest =>
    if remaining ≤ 0 then 0
    else
      let applicable :=
        match cap with
        | none => remaining
        | some c => min remaining c
      applicable / 1000 * rate + perThousandSum (remaining - applicable) rest

/-- Python `int()`: truncation toward zero. -/
def pyInt (q : ℚ) : ℤ := if 0 ≤ q then ⌊q⌋ else ⌈q⌉

/-- constants.py: `calculate_stamp_duty` — tiered BSD, rounded down to a
whole dollar (`int`), minimum `$1`; non-positive value gives `0`. -/
def calculate_stamp_duty (property_value : ℚ) : ℚ :=
  if property_value ≤ 0 then 0
  else max 1 ((pyInt (tieredSum property_value BSD_BRACKETS) : ℚ))

/-- constants.py: `calculate_hdb_legal_fees` — per-$1000 tiered fee,
rounded up to a whole dollar (`math.ceil`), GST applied, then floored at
the minimum fee `$21.80`; non-positive amount gives `0`. -/
def calculate_hdb_legal_fees (amount : ℚ) : ℚ :=
  if amount ≤ 0 then 0
  else max (218 / 10) ((⌈perThousandSum amount LEGAL_FEE_TIERS⌉ : ℚ) * (1 + GST_RATE))

/-- calculations.py: `calculate_monthly_payment` (PMT formula). -/
def calculate_monthly_payment (loan_amount annual_rate : ℚ) (tenure_years : ℕ) : ℚ :=
  if loan_amount ≤ 0 then 0
  else
    let r := annual_rate / 12
    let n := tenure_years * 12
    if r = 0 then loan_amount / n
    else loan_amount * (r * (1 + r) ^ n) / ((1 + r) ^ n - 1)

/-- calculations.py: `calculate_max_loan` (present value of annuity). -/
def calculate_max_loan (monthly_installment annual_rate : ℚ) (tenure_years : ℕ) : ℚ :=
  if monthly_installment ≤ 0 then 0
  else
    let r := annual_rate / 12
    let n := tenure_years * 12
    if r = 0 then monthly_installment * n
    else monthly_installment * ((1 + r) ^ n - 1) / (r * (1 + r) ^ n)

/-- calculations.py: `calculate_total_interest`. -/
def calculate_total_interest (loan_amount annual_rate : ℚ) (tenure_years : ℕ) : ℚ :=
  let monthly := calculate_monthly_payment loan_amount annual_rate tenure_years
  monthly * tenure_years * 12 - loan_amount

/-- calculations.py: `calculate_required_downpayment`. -/
def calculate_required_downpayment (flat_price : ℚ) : ℚ :=
  flat_price * (1 - LTV_LIMIT)

/-- calculations.py: `calculate_loan_amount`. -/
def calculate_loan_amount (flat_price : ℚ) : ℚ :=
  flat_price * LTV_LIMIT

/-- calculations.py: dataclass `LoanEligibility`. -/
structure LoanEligibility where
  max_monthly_installment : ℚ
  max_loan_amount : ℚ
  max_flat_price : ℚ
  tenure_years : ℕ
  interest_rate : ℚ
  available_msr : ℚ
  total_commitments : ℚ
  exceeds_income_ceiling : Bool

/-- calculations.py: `calculate_loan_eligibility`. -/
def calculate_loan_eligibility (gross_income : ℚ)
    (credit_card_payment car_loan_payment other_loan_payment : ℚ)
    (tenure_years : ℕ) (interest_rate : ℚ) : LoanEligibility :=
  let exceeds_ceiling := decide (HDB_INCOME_CEILING < gross_income)
  let total_commitments := credit_card_payment + car_loan_payment + other_loan_payment
  let max_msr := gross_income * MSR_LIMIT
  let available_msr := max 0 (max_msr - total_commitments)
  let max_loan := calculate_max_loan available_msr interest_rate tenure_years
  let max_flat_price := if 0 < LTV_LIMIT then max_loan / LTV_LIMIT else 0
  { max_monthly_installment := available_msr
    max_loan_amount := max_loan
    max_flat_price := max_flat_price
    tenure_years := tenure_years
    interest_rate := interest_rate
    available_msr := available_msr
    total_commitments := total_commitments
    exceeds_income_ceiling := exceeds_ceiling }

/-- calculations.py: `project_cpf_oa_balance` (simple linear projection);
`months` is an integer exactly as in Python. -/
def project_cpf_oa_balance (current_balance monthly_contribution : ℚ) (months : ℤ) : ℚ :=
  current_balance + monthly_contribution * months

/-- The `for _ in range(months)` loop of `project_cpf_oa_with_interest`:
each step does `balance = balance * (1 + monthly_rate) + monthly_contribution`. -/
def compoundLoop (monthly_rate monthly_contribution : ℚ) : ℕ → ℚ → ℚ
  | 0, balance => balance
  | k + 1, balance =>
    compoundLoop monthly_rate monthly_contribution k
      (balance * (1 + monthly_rate) + monthly_contribution)

/-- calculations.py: `project_cpf_oa_with_interest`; `range(months)` is
empty for `months ≤ 0`, which `Int.toNat` captures. -/
def project_cpf_oa_with_interest (current_balance monthly_contribution : ℚ)
    (months : ℤ) (annual_interest_rate : ℚ) : ℚ :=
  compoundLoop (annual_interest_rate / 12) monthly_contribution months.toNat current_balance

/-- calculations.py: `project_cash_balance`. -/
def project_cash_balance (current_balance monthly_savings : ℚ) (months : ℤ) : ℚ :=
  current_balance + monthly_savings * months

/-- calculations.py: dataclass `AffordabilityResult`. -/
structure AffordabilityResult where
  target_flat_price : ℚ
  stamp_duty : ℚ
  legal_fees : ℚ
  total_cost : ℚ
  required_downpayment : ℚ
  loan_amount : ℚ
  projected_cpf_oa : ℚ
  projected_cash : ℚ
  total_available : ℚ
  downpayment_gap : ℚ
  can_afford_downpayment : Bool
  can_afford_loan : Bool
  can_afford : Bool
  monthly_payment : ℚ

/-- calculations.py: `calculate_affordability`. -/
def calculate_affordability (target_flat_price : ℚ)
    (loan_eligibility : LoanEligibility)
    (projected_cpf_oa projected_cash : ℚ) : AffordabilityResult :=
  let loan_amount := calculate_loan_amount target_flat_price
  let stamp_duty := calculate_stamp_duty target_flat_price
  let legal_fee_purchase := calculate_hdb_legal_fees target_flat_price
  let legal_fee_mortgage := calculate_hdb_legal_fees loan_amount
  let total_legal_fees := legal_fee_purchase + legal_fee_mortgage
  let downpayment_on_flat := calculate_required_downpayment target_flat_price
  let required_downpayment := downpayment_on_flat + stamp_duty + total_legal_fees
  let total_cost := target_flat_price + stamp_duty + total_legal_fees
  let total_available := projected_cpf_oa + projected_cash
  let downpayment_gap := required_downpayment - total_available
  let can_afford_downpayment := decide (required_downpayment ≤ total_available)
  let can_afford_loan := decide (loan_amount ≤ loan_eligibility.max_loan_amount)
  let monthly_payment :=
    calculate_monthly_payment loan_amount loan_eligibility.interest_rate
      loan_eligibility.tenure_years
  { target_flat_price := target_flat_price
    stamp_duty := stamp_duty
    legal_fees := total_legal_fees
    total_cost := total_cost
    required_downpayment := required_downpayment
    loan_amount := loan_amount
    projected_cpf_oa := projected_cpf_oa
    projected_cash := projected_cash
    total_available := total_available
    downpayment_gap := downpayment_gap
    can_afford_downpayment := can_afford_downpayment
    can_afford_loan := can_afford_loan
    can_afford := can_afford_downpayment && can_afford_loan
    monthly_payment := monthly_payment }

/-- The bounded bisection loop of `calculate_max_affordable_flat`
(`for _ in range(50)` with break on tolerance), carrying the best
known feasible price. -/
def maxAffordableStep (available_downpayment : ℚ) : ℕ → ℚ → ℚ → ℚ → ℚ
  | 0, _, _, best => best
  | fuel + 1, low, high, best =>
    let mid := (low + high) / 2
    let loan_amt := mid * LTV_LIMIT
    let downpayment_on_flat := mid * (1 - LTV_LIMIT)
    let stamp_duty := calculate_stamp_duty mid
    let legal_fee_purchase := calculate_hdb_legal_fees mid
    let legal_fee_mortgage := calculate_hdb_legal_fees loan_amt
    let required_upfront :=
      downpayment_on_flat + stamp_duty + legal_fee_purchase + legal_fee_mortgage
    if |required_upfront - available_downpayment| < 100 then mid
    else if available_downpayment < required_upfront then
      maxAffordableStep available_downpayment fuel low mid best
    else
      maxAffordableStep available_downpayment fuel mid high mid

/-- calculations.py: `calculate_max_affordable_flat` — binary search for
the price supportable by the downpayment, capped by the loan ceiling. -/
def calculate_max_affordable_flat (loan_eligibility : LoanEligibility)
    (available_downpayment : ℚ) : ℚ :=
  let max_from_loan := loan_eligibility.max_flat_price
  let max_from_downpayment :=
    maxAffordableStep available_downpayment 50 0 (max_from_loan * 2) 0
  min max_from_loan max_from_downpayment

/-- constants.py: one entry of `EXPENSE_BENCHMARKS`; `max_income = none`
stands for `float(inf)`; the two savings-ratio fields are renamed
with the suffix `_frac`. -/
structure ExpenseBenchmark where
  min_income : ℚ
  max_income : Option ℚ
  typical_expense_frac : ℚ
  comfortable_savings_frac : ℚ
  aggressive_savings_frac : ℚ

/-- constants.py: `EXPENSE_BENCHMARKS["high"]`. -/
def BENCHMARK_HIGH : ExpenseBenchmark :=
  { min_income := 12000, max_income := none,
    typical_expense_frac := 55 / 100,
    comfortable_savings_frac := 30 / 100,
    aggressive_savings_frac := 45 / 100 }

/-- constants.py: `EXPENSE_BENCHMARKS` in dict insertion order
(low, mid_low, mid, high). -/
def EXPENSE_BENCHMARKS : List ExpenseBenchmark :=
  [{ min_income := 0, max_income := some 5000,
     typical_expense_frac := 85 / 100,
     comfortable_savings_frac := 15 / 100,
     aggressive_savings_frac := 25 / 100 },
   { min_income := 5000, max_income := some 8000,
     typical_expense_frac := 75 / 100,
     comfortable_savings_frac := 20 / 100,
     aggressive_savings_frac := 35 / 100 },
   { min_income := 8000, max_income := some 12000,
     typical_expense_frac := 65 / 100,
     comfortable_savings_frac := 25 / 100,
     aggressive_savings_frac := 40 / 100 },
   BENCHMARK_HIGH]

/-- The membership test `benchmark["min_income"] <= gross_income <
benchmark["max_income"]` of `get_expense_benchmark`. -/
def matchesBracket (gross_income : ℚ) (b : ExpenseBenchmark) : Bool :=
  decide (b.min_income ≤ gross_income) &&
    match b.max_income with
    | none => true
    | some m => decide (gross_income < m)

/-- constants.py: `get_expense_benchmark` — first matching bracket, with
the `high` bracket as fallback. -/
def get_expense_benchmark (gross_income : ℚ) : ExpenseBenchmark :=
  match EXPENSE_BENCHMARKS.find? (matchesBracket gross_income) with
  | some b => b
  | none => BENCHMARK_HIGH

/-- calculations.py: dataclass `SavingsHealthCheck` (`savings_ratio`
renamed `savings_frac`; the presentation message string is omitted). -/
structure SavingsHealthCheck where
  savings_frac : ℚ
  status : String
  suggested_savings : ℚ
  take_home_income : ℚ

/-- calculations.py: `check_savings_health`. -/
def check_savings_health (gross_income monthly_savings : ℚ) : SavingsHealthCheck :=
  let employee_cpf := gross_income * (20 / 100)
  let take_home := gross_income - employee_cpf
  if take_home ≤ 0 then
    { savings_frac := 0, status := "invalid",
      suggested_savings := 0, take_home_income := 0 }
  else
    let savings_frac := monthly_savings / take_home
    let benchmark := get_expense_benchmark gross_income
    let status :=
      if 50 / 100 < savings_frac then "unsustainable"
      else if benchmark.aggressive_savings_frac < savings_frac then "aggressive"
      else if benchmark.comfortable_savings_frac ≤ savings_frac then "healthy"
      else if 0 < savings_frac then "low"
      else "none"
    let suggested := take_home * benchmark.comfortable_savings_frac
    { savings_frac := savings_frac, status := status,
      suggested_savings := suggested, take_home_income := take_home }

/-! ## Helper lemmas -/

/-- The stamp duty `calculate_stamp_duty` never returns a negative amount. -/
lemma calculate_stamp_duty_nonneg (a : ℚ) : 0 ≤ calculate_stamp_duty a := by
  unfold calculate_stamp_duty
  split_ifs
  · exact le_refl 0
  · exact le_trans (by norm_num) (le_max_left 1 _)

/-- The legal fee `calculate_hdb_legal_fees` never returns a negative amount. -/
lemma calculate_hdb_legal_fees_nonneg (a : ℚ) : 0 ≤ calculate_hdb_legal_fees a := by
  unfold calculate_hdb_legal_fees
  split_ifs
  · exact le_refl 0
  · exact le_trans (by norm_num) (le_max_left (218 / 10) _)

/-- Tier tables whose rates and capacities are all non-negative. -/
def goodTiers (ts : List (Option ℚ × ℚ)) : Prop :=
  ∀ p ∈ ts, 0 ≤ p.2 ∧ ∀ c : ℚ, p.1 = some c → 0 ≤ c

lemma goodTiers_cons {cap : Option ℚ} {rate : ℚ} {rest : List (Option ℚ × ℚ)}
    (h : goodTiers ((cap, rate) :: rest)) :
    0 ≤ rate ∧ (∀ c : ℚ, cap = some c → 0 ≤ c) ∧ goodTiers rest :=
  ⟨(h (cap, rate) (List.mem_cons_self _ _)).1,
   (h (cap, rate) (List.mem_cons_self _ _)).2,
   fun p hp => h p (List.mem_cons_of_mem _ hp)⟩

lemma goodTiers_BSD : goodTiers BSD_BRACKETS := by
  intro p hp
  fin_cases hp
  · exact ⟨by norm_num, fun c hc => by injection hc with h; exact h ▸ by norm_num⟩
  · exact ⟨by norm_num, fun c hc => by injection hc with h; exact h ▸ by norm_num⟩
  · exact ⟨by norm_num, fun c hc => by injection hc with h; exact h ▸ by norm_num⟩
  · exact ⟨by norm_num, fun c hc => Option.noConfusion hc⟩

lemma goodTiers_LEGAL : goodTiers LEGAL_FEE_TIERS := by
  intro p hp
  fin_cases hp
  · exact ⟨by norm_num, fun c hc => by injection hc with h; exact h ▸ by norm_num⟩
  · exact ⟨by norm_num, fun c hc => by injection hc with h; exact h ▸ by norm_num⟩
  · exact ⟨by norm_num, fun c hc => Option.noConfusion hc⟩

lemma tieredSum_nonneg (ts : List (Option ℚ × ℚ)) (h : goodTiers ts) (r : ℚ) :
    0 ≤ tieredSum r ts := by
  induction ts generalizing r with
  | nil => simp [tieredSum]
  | cons p rest ih =>
    obtain ⟨cap, rate⟩ := p
    obtain ⟨hrate, hcap, hrest⟩ := goodTiers_cons h
    by_cases hr : r ≤ 0
    · simp [tieredSum, hr]
    · push_neg at hr
      cases cap with
      | none =>
        simp only [tieredSum, if_neg (not_le.mpr hr)]
        have h1 : 0 ≤ r * rate := mul_nonneg hr.le hrate
        have h2 := ih hrest (r - r)
        linarith
      | some c =>
        have hc : 0 ≤ c := hcap c rfl
        simp only [tieredSum, if_neg (not_le.mpr hr)]
        have h1 : 0 ≤ min r c := le_min hr.le hc
        have h2 := ih hrest (r - min r c)
        have h3 : 0 ≤ min r c * rate := mul_nonneg h1 hrate
        linarith

lemma tieredSum_mono (ts : List (Option ℚ × ℚ)) (h : goodTiers ts)
    {r1 r2 : ℚ} (hr : r1 ≤ r2) :
    tieredSum r1 ts ≤ tieredSum r2 ts := by
  induction ts generalizing r1 r2 with
  | nil => simp [tieredSum]
  | cons p rest ih =>
    obtain ⟨cap, rate⟩ := p
    obtain ⟨hrate, hcap, hrest⟩ := goodTiers_cons h
    by_cases h2 : r2 ≤ 0
    · have h1 : r1 ≤ 0 := le_trans hr h2
      simp [tieredSum, h1, h2]
    · push_neg at h2
      by_cases h1 : r1 ≤ 0
      · rw [show tieredSum r1 ((cap, rate) :: rest) = 0 from by
          simp [tieredSum, h1]]
        exact tieredSum_nonneg _ h r2
      · push_neg at h1
        cases cap with
        | none =>
          simp only [tieredSum, if_neg (not_le.mpr h1), if_neg (not_le.mpr h2)]
          have ht : r1 * rate ≤ r2 * rate := mul_le_mul_of_nonneg_right hr hrate
          have h0 : tieredSum (r1 - r1) rest ≤ tieredSum (r2 - r2) rest := by
            rw [sub_self, sub_self]
          linarith
        | some c =>
          simp only [tieredSum, if_neg (not_le.mpr h1), if_neg (not_le.mpr h2)]
          have hmin : min r1 c ≤ min r2 c := min_le_min hr (le_refl c)
          have hterm : min r1 c * rate ≤ min r2 c * rate :=
            mul_le_mul_of_nonneg_right hmin hrate
          have hrem : r1 - min r1 c ≤ r2 - min r2 c := by
            rcases le_total r1 c with hca | hca
            · rw [min_eq_left hca]
              rcases le_total r2 c with hcb | hcb
              · rw [min_eq_left hcb]; linarith
              · rw [min_eq_right hcb]; linarith
            · rw [min_eq_right hca, min_eq_right (le_trans hca hr)]
              linarith
          have := ih hrest hrem
          linarith

lemma perThousandSum_nonneg (ts : List (Option ℚ × ℚ)) (h : goodTiers ts) (r : ℚ) :
    0 ≤ perThousandSum r ts := by
  induction ts generalizing r with
  | nil => simp [perThousandSum]
  | cons p rest ih =>
    obtain ⟨cap, rate⟩ := p
    obtain ⟨hrate, hcap, hrest⟩ := goodTiers_cons h
    by_cases hr : r ≤ 0
    · simp [perThousandSum, hr]
    · push_neg at hr
      cases cap with
      | none =>
        simp only [perThousandSum, if_neg (not_le.mpr hr)]
        have h1 : 0 ≤ r / 1000 * rate := mul_nonneg (by linarith) hrate
        have h2 := ih hrest (r - r)
        linarith
      | some c =>
        have hc : 0 ≤ c := hcap c rfl
        simp only [perThousandSum, if_neg (not_le.mpr hr)]
        have h1 : 0 ≤ min r c := le_min hr.le hc
        have h2 := ih hrest (r - min r c)
        have h3 : 0 ≤ min r c / 1000 * rate := mul_nonneg (by linarith) hrate
        linarith

lemma perThousandSum_mono (ts : List (Option ℚ × ℚ)) (h : goodTiers ts)
    {r1 r2 : ℚ} (hr : r1 ≤ r2) :
    perThousandSum r1 ts ≤ perThousandSum r2 ts := by
  induction ts generalizing r1 r2 with
  | nil => simp [perThousandSum]
  | cons p rest ih =>
    obtain ⟨cap, rate⟩ := p
    obtain ⟨hrate, hcap, hrest⟩ := goodTiers_cons h
    by_cases h2 : r2 ≤ 0
    · have h1 : r1 ≤ 0 := le_trans hr h2
      simp [perThousandSum, h1, h2]
    · push_neg at h2
      by_cases h1 : r1 ≤ 0
      · rw [show perThousandSum r1 ((cap, rate) :: rest) = 0 from by
          simp [perThousandSum, h1]]
        exact perThousandSum_nonneg _ h r2
      · push_neg at h1
        cases cap with
        | none =>
          simp only [perThousandSum, if_neg (not_le.mpr h1), if_neg (not_le.mpr h2)]
          have hd : r1 / 1000 ≤ r2 / 1000 := by linarith
          have ht : r1 / 1000 * rate ≤ r2 / 1000 * rate :=
            mul_le_mul_of_nonneg_right hd hrate
          have h0 : perThousandSum (r1 - r1) rest ≤ perThousandSum (r2 - r2) rest := by
            rw [sub_self, sub_self]
          linarith
        | some c =>
          simp only [perThousandSum, if_neg (not_le.mpr h1), if_neg (not_le.mpr h2)]
          have hmin : min r1 c ≤ min r2 c := min_le_min hr (le_refl c)
          have hd : min r1 c / 1000 ≤ min r2 c / 1000 := by linarith
          have hterm : min r1 c / 1000 * rate ≤ min r2 c / 1000 * rate :=
            mul_le_mul_of_nonneg_right hd hrate
          have hrem : r1 - min r1 c ≤ r2 - min r2 c := by
            rcases le_total r1 c with hca | hca
            · rw [min_eq_left hca]
              rcases le_total r2 c with hcb | hcb
              · rw [min_eq_left hcb]; linarith
              · rw [min_eq_right hcb]; linarith
            · rw [min_eq_right hca, min_eq_right (le_trans hca hr)]
              linarith
          have := ih hrest hrem
          linarith

/-! ## Claim theorems -/

/-- C4: every `AffordabilityResult` returned by `calculate_affordability`
satisfies `can_afford = (can_afford_downpayment && can_afford_loan)`,
`downpayment_gap = required_downpayment - total_available`, and
`total_cost = target_flat_price + stamp_duty + legal_fees`. -/
theorem affordability_invariants (price : ℚ) (elig : LoanEligibility)
    (cpf cash : ℚ) :
    (calculate_affordability price elig cpf cash).can_afford =
      ((calculate_affordability price elig cpf cash).can_afford_downpayment &&
        (calculate_affordability price elig cpf cash).can_afford_loan) ∧
    (calculate_affordability price elig cpf cash).downpayment_gap =
      (calculate_affordability price elig cpf cash).required_downpayment -
        (calculate_affordability price elig cpf cash).total_available ∧
    (calculate_affordability price elig cpf cash).total_cost =
      (calculate_affordability price elig cpf cash).target_flat_price +
        (calculate_affordability price elig cpf cash).stamp_duty +
        (calculate_affordability price elig cpf cash).legal_fees :=
  ⟨rfl, rfl, rfl⟩

/-- C5: the result of `calculate_max_affordable_flat` never exceeds the
eligibility field `max_flat_price` — the loan-eligibility ceiling caps the
binary-search result. -/
theorem max_affordable_flat_le_ceiling (elig : LoanEligibility)
    (available_downpayment : ℚ) :
    calculate_max_affordable_flat elig available_downpayment ≤ elig.max_flat_price :=
  min_le_left _ _

/-- C10: with `months = 0` all three projections return the initial
balance; with negative `months` the compounding projection still returns
the initial balance (the loop body never runs), while the two linear
projections return `balance + contribution * months`, which can fall
below the initial balance. -/
theorem projection_months_identities :
    (∀ b c : ℚ, project_cash_balance b c 0 = b) ∧
    (∀ b c : ℚ, project_cpf_oa_balance b c 0 = b) ∧
    (∀ b c r : ℚ, project_cpf_oa_with_interest b c 0 r = b) ∧
    (∀ (b c r : ℚ) (m : ℤ), m < 0 →
      project_cpf_oa_with_interest b c m r = b ∧
      project_cash_balance b c m = b + c * m ∧
      project_cpf_oa_balance b c m = b + c * m) ∧
    project_cash_balance 100 10 (-5) < 100 := by
  refine ⟨fun b c => by simp [project_cash_balance],
    fun b c => by simp [project_cpf_oa_balance],
    fun b c r => rfl,
    fun b c r m hm => ⟨?_, rfl, rfl⟩,
    by norm_num [project_cash_balance]⟩
  unfold project_cpf_oa_with_interest
  rw [Int.toNat_of_nonpos hm.le]
  rfl

/-- C10 witness: the negative-months facts at `b = 100`, `c = 10`,
`r = 0.025`, `m = -3`. -/
theorem projection_months_identities_witness :
    project_cpf_oa_with_interest 100 10 (-3) (25 / 1000) = 100 ∧
    project_cash_balance 100 10 (-3) = 70 ∧
    project_cpf_oa_balance 100 10 (-3) = 70 := by
  have h := projection_months_identities.2.2.2.1 100 10 (25 / 1000) (-3) (by norm_num)
  refine ⟨h.1, ?_, ?_⟩
  · rw [h.2.1]; norm_num
  · rw [h.2.2]; norm_num

/-- C3 counterexample: `calculate_total_interest` does **not** return `0`
on a negative principal — at `loan_amount = -100` it returns `100`
(`0 * 300 - (-100)`), so the "defined zero result" claim fails for it. -/
theorem total_interest_negative_input_not_zero :
    calculate_total_interest (-100) (26 / 1000) 25 = 100 ∧
    calculate_total_interest (-100) (26 / 1000) 25 ≠ 0 := by
  constructor <;>
    norm_num [calculate_total_interest, calculate_monthly_payment]

/-- C3 (amended): for non-positive inputs, `calculate_monthly_payment`,
`calculate_max_loan`, `calculate_stamp_duty`, and
`calculate_hdb_legal_fees` return `0`, while `calculate_total_interest`
returns the negation of its input — which is `0` only at input `0` and
positive for negative inputs. -/
theorem nonpositive_inputs_results (x annual_rate : ℚ) (tenure_years : ℕ)
    (hx : x ≤ 0) :
    calculate_monthly_payment x annual_rate tenure_years = 0 ∧
    calculate_max_loan x annual_rate tenure_years = 0 ∧
    calculate_stamp_duty x = 0 ∧
    calculate_hdb_legal_fees x = 0 ∧
    calculate_total_interest x annual_rate tenure_years = -x := by
  refine ⟨?_, ?_, ?_, ?_, ?_⟩
  · simp only [calculate_monthly_payment]; exact if_pos hx
  · simp only [calculate_max_loan]; exact if_pos hx
  · simp only [calculate_stamp_duty]; exact if_pos hx
  · simp only [calculate_hdb_legal_fees]; exact if_pos hx
  · simp only [calculate_total_interest, calculate_monthly_payment, if_pos hx]
    ring

/-- C3 witness: the amended statement at input `-100`. -/
theorem nonpositive_inputs_results_witness :
    calculate_monthly_payment (-100) (26 / 1000) 25 = 0 ∧
    calculate_max_loan (-100) (26 / 1000) 25 = 0 ∧
    calculate_stamp_duty (-100) = 0 ∧
    calculate_hdb_legal_fees (-100) = 0 ∧
    calculate_total_interest (-100) (26 / 1000) 25 = -(-100) :=
  nonpositive_inputs_results (-100) (26 / 1000) 25 (by norm_num)

/-- C6: `calculate_stamp_duty 0 = 0`; for positive values the duty is at
least `$1` and equals the tiered sum truncated toward zero to whole
dollars (with the `$1` floor); at `800000` the duty is `18600`
(`180000·1% + 180000·2% + 440000·3%`); and `calculate_affordability` at
target price `800000` reports `loan_amount = 600000`. -/
theorem stamp_duty_spec :
    calculate_stamp_duty 0 = 0 ∧
    (∀ x : ℚ, 0 < x → 1 ≤ calculate_stamp_duty x) ∧
    (∀ x : ℚ, 0 < x →
      calculate_stamp_duty x = max 1 ((pyInt (tieredSum x BSD_BRACKETS) : ℚ))) ∧
    calculate_stamp_duty 800000 = 18600 ∧
    (∀ (elig : LoanEligibility) (cpf cash : ℚ),
      (calculate_affordability 800000 elig cpf cash).loan_amount = 600000) := by
  refine ⟨by norm_num [calculate_stamp_duty], ?_, ?_, ?_, ?_⟩
  · intro x hx
    rw [calculate_stamp_duty, if_neg (not_le.mpr hx)]
    exact le_max_left _ _
  · intro x hx
    rw [calculate_stamp_duty, if_neg (not_le.mpr hx)]
  · norm_num [calculate_stamp_duty, tieredSum, BSD_BRACKETS, pyInt, max_def, min_def]
  · intro elig cpf cash
    show (800000 : ℚ) * LTV_LIMIT = 600000
    norm_num [LTV_LIMIT]

/-- C6 witness: the universally quantified parts at `x = 100` and an
arbitrary concrete eligibility. -/
theorem stamp_duty_spec_witness :
    1 ≤ calculate_stamp_duty 100 ∧
    calculate_stamp_duty 100 = max 1 ((pyInt (tieredSum 100 BSD_BRACKETS) : ℚ)) ∧
    (calculate_affordability 800000
      ⟨3180, 700000, 933333, 25, 26 / 1000, 3180, 0, false⟩ 0 0).loan_amount = 600000 :=
  ⟨stamp_duty_spec.2.1 100 (by norm_num),
   stamp_duty_spec.2.2.1 100 (by norm_num),
   stamp_duty_spec.2.2.2.2 ⟨3180, 700000, 933333, 25, 26 / 1000, 3180, 0, false⟩ 0 0⟩

/-- C7: for positive amounts, `calculate_hdb_legal_fees` is the tiered
per-$1000 sum rounded up to the next whole dollar, then multiplied by
`1 + 0.09` (GST), then floored at the minimum fee `$21.80`, in that
order; for non-positive amounts it is `0`. -/
theorem legal_fees_spec (a : ℚ) :
    (a ≤ 0 → calculate_hdb_legal_fees a = 0) ∧
    (0 < a → calculate_hdb_legal_fees a =
      max (218 / 10) ((⌈perThousandSum a LEGAL_FEE_TIERS⌉ : ℚ) * (1 + 9 / 100))) := by
  constructor
  · intro ha
    rw [calculate_hdb_legal_fees, if_pos ha]
  · intro ha
    rw [calculate_hdb_legal_fees, if_neg (not_le.mpr ha)]
    rfl

/-- C7 witness: both branches, at `a = -5` and `a = 800000`. -/
theorem legal_fees_spec_witness :
    calculate_hdb_legal_fees (-5) = 0 ∧
    calculate_hdb_legal_fees 800000 =
      max (218 / 10) ((⌈perThousandSum 800000 LEGAL_FEE_TIERS⌉ : ℚ) * (1 + 9 / 100)) :=
  ⟨(legal_fees_spec (-5)).1 (by norm_num),
   (legal_fees_spec 800000).2 (by norm_num)⟩

/-- C1 counterexample: in the spec scenario (gross income `10600`, no
commitments, tenure `25`, rate `0.026`) the computed `max_loan_amount`
is about `700950.79`, which is **not** within `1000` of `776000`. -/
theorem scenario_max_loan_not_near_776000 :
    ¬ |(calculate_loan_eligibility 10600 0 0 0 25 (26 / 1000)).max_loan_amount
        - 776000| ≤ 1000 := by
  norm_num [calculate_loan_eligibility, calculate_max_loan, MSR_LIMIT, LTV_LIMIT,
    abs_le, max_def]

/-- C1 (amended): in that scenario `available_msr = 3180`,
`max_loan_amount` is within `1000` of `700950`, and `max_flat_price`
is within `1500` of `934600`. -/
theorem scenario_eligibility_values :
    (calculate_loan_eligibility 10600 0 0 0 25 (26 / 1000)).available_msr = 3180 ∧
    |(calculate_loan_eligibility 10600 0 0 0 25 (26 / 1000)).max_loan_amount
      - 700950| ≤ 1000 ∧
    |(calculate_loan_eligibility 10600 0 0 0 25 (26 / 1000)).max_flat_price
      - 934600| ≤ 1500 := by
  refine ⟨?_, ?_, ?_⟩ <;>
    norm_num [calculate_loan_eligibility, calculate_max_loan, MSR_LIMIT, LTV_LIMIT,
      abs_le, max_def]

/-- C2: the amortization round-trip — for positive principal, rate in
`[0, 0.1]` and tenure in `[1, 30]` years, feeding the monthly payment
back through `calculate_max_loan` recovers the principal (exactly over
`ℚ`, hence within the claimed `1e-6` relative tolerance). -/
theorem amortization_round_trip (P r : ℚ) (n : ℕ)
    (hP : 0 < P) (hr0 : 0 ≤ r) (hr1 : r ≤ 1 / 10) (hn1 : 1 ≤ n) (hn2 : n ≤ 30) :
    |calculate_max_loan (calculate_monthly_payment P r n) r n - P| ≤ P * (1 / 1000000) := by
  have key : calculate_max_loan (calculate_monthly_payment P r n) r n = P := by
    simp only [calculate_monthly_payment, if_neg (not_le.mpr hP)]
    by_cases hr : r / 12 = 0
    · simp only [if_pos hr]
      have hn : (0 : ℚ) < ((n * 12 : ℕ) : ℚ) := by
        have : 0 < n * 12 := by omega
        exact_mod_cast this
      have hpos : 0 < P / ((n * 12 : ℕ) : ℚ) := div_pos hP hn
      simp only [calculate_max_loan, if_neg (not_le.mpr hpos), if_pos hr]
      exact div_mul_cancel₀ P (ne_of_gt hn)
    · simp only [if_neg hr]
      have hrm : 0 < r / 12 := lt_of_le_of_ne (by positivity) (Ne.symm hr)
      have hq1 : 1 < (1 + r / 12) ^ (n * 12) :=
        one_lt_pow₀ (by linarith) (by omega)
      have hq0 : (0 : ℚ) < (1 + r / 12) ^ (n * 12) := by linarith
      have hpay : 0 < P * (r / 12 * (1 + r / 12) ^ (n * 12)) /
          ((1 + r / 12) ^ (n * 12) - 1) :=
        div_pos (mul_pos hP (mul_pos hrm hq0)) (by linarith)
      simp only [calculate_max_loan, if_neg (not_le.mpr hpay), if_neg hr]
      rw [div_mul_cancel₀ _ (sub_ne_zero.mpr (ne_of_gt hq1)),
        mul_div_cancel_right₀ P (ne_of_gt (mul_pos hrm hq0))]
  rw [key, sub_self, abs_zero]
  positivity

/-- C2 witness: the round-trip bound at `P = 100000`, `r = 0.026`,
`n = 25`. -/
theorem amortization_round_trip_witness :
    |calculate_max_loan (calculate_monthly_payment 100000 (26 / 1000) 25)
      (26 / 1000) 25 - 100000| ≤ 100000 * (1 / 1000000) :=
  amortization_round_trip 100000 (26 / 1000) 25 (by norm_num) (by norm_num)
    (by norm_num) (by norm_num) (by norm_num)

/-- C9: for positive gross income (hence positive take-home),
`check_savings_health` decides its status by the first match in the
strict order unsustainable / aggressive / healthy / low / none, and a
savings amount equal to `0.55` of take-home always yields
"unsustainable", regardless of the income bracket. -/
theorem savings_health_status_spec :
    (∀ gross_income monthly_savings : ℚ, 0 < gross_income →
      (check_savings_health gross_income monthly_savings).status =
        (if 50 / 100 < monthly_savings / (gross_income - gross_income * (20 / 100))
          then "unsustainable"
        else if (get_expense_benchmark gross_income).aggressive_savings_frac <
            monthly_savings / (gross_income - gross_income * (20 / 100))
          then "aggressive"
        else if (get_expense_benchmark gross_income).comfortable_savings_frac ≤
            monthly_savings / (gross_income - gross_income * (20 / 100))
          then "healthy"
        else if 0 < monthly_savings / (gross_income - gross_income * (20 / 100))
          then "low"
        else "none")) ∧
    (∀ gross_income : ℚ, 0 < gross_income →
      (check_savings_health gross_income
        ((55 / 100) * (gross_income - gross_income * (20 / 100)))).status =
        "unsustainable") := by
  have hth : ∀ g : ℚ, 0 < g → ¬ (g - g * (20 / 100) ≤ 0) := by
    intro g hg
    push_neg
    linarith
  constructor
  · intro g s hg
    simp only [check_savings_health, if_neg (hth g hg)]
  · intro g hg
    have hne : g - g * (20 / 100) ≠ 0 := by
      have := hth g hg
      push_neg at this
      exact ne_of_gt this
    simp only [check_savings_health, if_neg (hth g hg)]
    rw [mul_div_cancel_right₀ (55 / 100 : ℚ) hne]
    norm_num

/-- C9 witness: the cascade shape and the `0.55` scenario at gross
income `10600`. -/
theorem savings_health_status_spec_witness :
    (check_savings_health 10600
      ((55 / 100) * (10600 - 10600 * (20 / 100)))).status = "unsustainable" :=
  savings_health_status_spec.2 10600 (by norm_num)

/-- C8: both tiered schedules are monotone non-decreasing — for all
`a1 < a2`, `calculate_stamp_duty a1 ≤ calculate_stamp_duty a2` and
`calculate_hdb_legal_fees a1 ≤ calculate_hdb_legal_fees a2`, across the
non-positive/positive boundary and across tier and rounding boundaries. -/
theorem tiered_fees_monotone (a1 a2 : ℚ) (h : a1 < a2) :
    calculate_stamp_duty a1 ≤ calculate_stamp_duty a2 ∧
    calculate_hdb_legal_fees a1 ≤ calculate_hdb_legal_fees a2 := by
  constructor
  · by_cases h1 : a1 ≤ 0
    · rw [calculate_stamp_duty, if_pos h1]
      exact calculate_stamp_duty_nonneg a2
    · have h2 : ¬ a2 ≤ 0 := fun hc => h1 (le_trans h.le hc)
      rw [calculate_stamp_duty, if_neg h1, calculate_stamp_duty, if_neg h2]
      have hs1 : 0 ≤ tieredSum a1 BSD_BRACKETS :=
        tieredSum_nonneg _ goodTiers_BSD a1
      have hs2 : 0 ≤ tieredSum a2 BSD_BRACKETS :=
        tieredSum_nonneg _ goodTiers_BSD a2
      have hmono : tieredSum a1 BSD_BRACKETS ≤ tieredSum a2 BSD_BRACKETS :=
        tieredSum_mono _ goodTiers_BSD h.le
      rw [pyInt, if_pos hs1, pyInt, if_pos hs2]
      exact max_le_max (le_refl 1)
        (by exact_mod_cast Int.floor_le_floor hmono)
  · by_cases h1 : a1 ≤ 0
    · rw [calculate_hdb_legal_fees, if_pos h1]
      exact calculate_hdb_legal_fees_nonneg a2
    · have h2 : ¬ a2 ≤ 0 := fun hc => h1 (le_trans h.le hc)
      rw [calculate_hdb_legal_fees, if_neg h1, calculate_hdb_legal_fees, if_neg h2]
      have hmono : perThousandSum a1 LEGAL_FEE_TIERS ≤ perThousandSum a2 LEGAL_FEE_TIERS :=
        perThousandSum_mono _ goodTiers_LEGAL h.le
      refine max_le_max (le_refl _) ?_
      have hceil : ((⌈perThousandSum a1 LEGAL_FEE_TIERS⌉ : ℤ) : ℚ) ≤
          ((⌈perThousandSum a2 LEGAL_FEE_TIERS⌉ : ℤ) : ℚ) := by
        exact_mod_cast Int.ceil_le_ceil hmono
      exact mul_le_mul_of_nonneg_right hceil (by norm_num [GST_RATE])

/-- C8 witness: monotonicity at the concrete pair `250000 < 600000`. -/
theorem tiered_fees_monotone_witness :
    calculate_stamp_duty 250000 ≤ calculate_stamp_duty 600000 ∧
    calculate_hdb_legal_fees 250000 ≤ calculate_hdb_legal_fees 600000 :=
  tiered_fees_monotone 250000 600000 (by norm_num)

end BTO
